import Mathlib

/-!
Verification of the rule-based prompt reformatting engine of the
`reformat` package (files `reformat/rules.py`, `reformat/templates.py`,
`reformat/reformatter.py`, `reformat/improver.py`).

The Python code is shallowly embedded: every class becomes a structure,
every method a function, mutation becomes explicit state passing, and
exceptions become `Except`.  Python string built-ins (`split`, `strip`,
`join`, `replace`, `startswith`, `in`, `upper`, `lower`, `title`,
`str.format`) are modelled by the executable `py*` functions below,
written with structural recursion (fuel where needed) so that the kernel
can evaluate them on concrete inputs.  Text is treated at the level of
Unicode code points; the case maps model Python's behaviour on ASCII
letters (the only case-mapped characters exercised by the code's label
and rule-name vocabulary).
-/

/-- Characters treated as whitespace by Python's `str.strip`
(space, tab, newline, carriage return, vertical tab, form feed). -/
def pyIsSpace (c : Char) : Bool :=
  c = ' ' || c = '\t' || c = '\n' || c = '\r' || c.toNat = 11 || c.toNat = 12

/-- Python `str.strip()`: remove leading and trailing whitespace. -/
def pyStrip (s : String) : String :=
  String.mk (((s.data.dropWhile pyIsSpace).reverse.dropWhile pyIsSpace).reverse)

/-- Helper for `pySplit`: split a character list on a non-empty separator,
left to right, non-overlapping.  `fuel` bounds the recursion depth; it is
instantiated with the length of the input plus one, which is always enough
because every step consumes at least one character. -/
def pySplitAux (sep : List Char) : Nat → List Char → List Char → List (List Char)
  | 0, acc, l => [acc.reverse ++ l]
  | _ + 1, acc, [] => [acc.reverse]
  | fuel + 1, acc, c :: cs =>
    if sep.isPrefixOf (c :: cs) then
      acc.reverse :: pySplitAux sep fuel [] (List.drop (sep.length - 1) cs)
    else
      pySplitAux sep fuel (c :: acc) cs

/-- Python `s.split(sep)` for a non-empty separator `sep`
(Python raises on an empty separator; the code never passes one,
and the model returns `[s]` in that unreachable case). -/
def pySplit (s : String) (sep : String) : List String :=
  if sep.data = [] then [s]
  else (pySplitAux sep.data (s.data.length + 1) [] s.data).map String.mk

/-- Python `sep.join(parts)`. -/
def pyJoin (sep : String) : List String → String
  | [] => ""
  | [x] => x
  | x :: y :: rest => x ++ sep ++ pyJoin sep (y :: rest)

/-- Helper for `pyReplace`, fuel-bounded for the same reason as `pySplitAux`. -/
def pyReplaceAux (pat rep : List Char) : Nat → List Char → List Char
  | 0, l => l
  | _ + 1, [] => []
  | fuel + 1, c :: cs =>
    if pat.isPrefixOf (c :: cs) then
      rep ++ pyReplaceAux pat rep fuel (List.drop (pat.length - 1) cs)
    else
      c :: pyReplaceAux pat rep fuel cs

/-- Python `s.replace(pat, rep)` for a non-empty pattern: replace every
non-overlapping occurrence, scanning left to right.  (The code only ever
replaces digit strings, which are non-empty; the empty-pattern case is
modelled as the identity.) -/
def pyReplace (s pat rep : String) : String :=
  if pat.data = [] then s
  else String.mk (pyReplaceAux pat.data rep.data (s.data.length + 1) s.data)

/-- Helper for `pyContains`. -/
def pyContainsAux (pat : List Char) : List Char → Bool
  | [] => pat.isPrefixOf ([] : List Char)
  | c :: cs => pat.isPrefixOf (c :: cs) || pyContainsAux pat cs

/-- Python `pat in s` (substring containment). -/
def pyContains (s pat : String) : Bool :=
  pyContainsAux pat.data s.data

/-- Python `s.startswith(pre)`. -/
def pyStartsWith (s pre : String) : Bool :=
  pre.data.isPrefixOf s.data

/-- Python `s[n:]` (drop the first `n` characters). -/
def pyDrop (s : String) (n : Nat) : String :=
  String.mk (s.data.drop n)

/-- Python `len(s)` (number of code points). -/
def pyLen (s : String) : Nat :=
  s.data.length

/-- ASCII lowercase letter test (`97 ≤ c ≤ 122`). -/
def pyIsLowerChar (c : Char) : Bool :=
  97 ≤ c.toNat && c.toNat ≤ 122

/-- ASCII uppercase letter test (`65 ≤ c ≤ 90`). -/
def pyIsUpperChar (c : Char) : Bool :=
  65 ≤ c.toNat && c.toNat ≤ 90

/-- ASCII letter test. -/
def pyIsAlphaChar (c : Char) : Bool :=
  pyIsLowerChar c || pyIsUpperChar c

/-- ASCII digit test. -/
def pyIsDigitChar (c : Char) : Bool :=
  48 ≤ c.toNat && c.toNat ≤ 57

/-- Uppercase one character (ASCII model of Python's case map). -/
def asciiUpperChar (c : Char) : Char :=
  if pyIsLowerChar c then Char.ofNat (c.toNat - 32) else c

/-- Lowercase one character (ASCII model of Python's case map). -/
def asciiLowerChar (c : Char) : Char :=
  if pyIsUpperChar c then Char.ofNat (c.toNat + 32) else c

/-- Python `s.upper()`. -/
def pyUpper (s : String) : String :=
  String.mk (s.data.map asciiUpperChar)

/-- Python `s.lower()`. -/
def pyLower (s : String) : String :=
  String.mk (s.data.map asciiLowerChar)

/-- Python `s.title()` worker: a letter is uppercased when the previous
character was not a letter and lowercased otherwise; the Boolean state
records whether the previous character was a (cased) letter. -/
def pyTitleGo : Bool → List Char → List Char
  | _, [] => []
  | prevCased, c :: cs =>
    (if pyIsAlphaChar c then
      (if prevCased then asciiLowerChar c else asciiUpperChar c)
     else c) :: pyTitleGo (pyIsAlphaChar c) cs

/-- Python `s.title()`. -/
def pyTitle (s : String) : String :=
  String.mk (pyTitleGo false s.data)

/-- Being in title case (ASCII): every letter that starts a letter run is
uppercase and every other letter is lowercase.  This is the set of fixed
points of `pyTitleGo`. -/
def titleCasedOK : Bool → List Char → Bool
  | _, [] => true
  | prevCased, c :: cs =>
    (if pyIsAlphaChar c then
      (if prevCased then pyIsLowerChar c else pyIsUpperChar c)
     else true) && titleCasedOK (pyIsAlphaChar c) cs

/-- Python `fmt.format(arg)` for a format string with `\x7b\x7d` placeholders:
every placeholder is replaced by `arg`.  Faithful to the code's usage, where
every stored `format_str` holds exactly one placeholder and no brace escapes. -/
def pyFormat (fmt : String) (arg : String) : String :=
  pyJoin arg (pySplit fmt "{}")

/-- Python `enumerate(l, 1)` (1-based index pairing), via its worker. -/
def pyEnumerateAux {α : Type} : Nat → List α → List (Nat × α)
  | _, [] => []
  | i, a :: as => (i, a) :: pyEnumerateAux (i + 1) as

/-- Python `enumerate(l, 1)`. -/
def pyEnumerate1 {α : Type} (l : List α) : List (Nat × α) :=
  pyEnumerateAux 1 l

/-!
Model of Python `float(text)` as used by `PromptImprover.evaluate_format`
(`improver.py`, lines 112-121).  Finite values are represented exactly in
`ℚ`; decimal literals such as "1.5" or "-3" denote the same value in both
representations, and the clamping comparisons against 0 and 1 behave
identically.  Infinite and not-a-number results are kept symbolic so that
the clamp can reproduce Python's `max`/`min` comparison behaviour on them.
-/

/-- Result of a successful Python `float` conversion. -/
inductive PyFloatVal where
  | finite (q : ℚ)
  | inf
  | neginf
  | nan
deriving DecidableEq

/-- Numeric value of a list of ASCII digits. -/
def digitsToNat (l : List Char) : Nat :=
  l.foldl (fun acc c => acc * 10 + (c.toNat - 48)) 0

/-- Python `float(text)`: strip whitespace, optional sign, then either an
infinity/nan spelling or a decimal literal `digits [. digits] [(e|E) [sign]
digits]` with at least one mantissa digit.  Returns `none` where Python
raises `ValueError`.  (Underscore digit separators, accepted by Python
since 3.6, are not modelled; no judge response in scope uses them.) -/
def pyFloat (s : String) : Option PyFloatVal :=
  let t := (pyStrip s).data
  let signNeg : Bool := match t with
    | '-' :: _ => true
    | _ => false
  let rest : List Char := match t with
    | '+' :: cs => cs
    | '-' :: cs => cs
    | cs => cs
  let low := rest.map asciiLowerChar
  if low = "inf".data || low = "infinity".data then
    some (if signNeg then .neginf else .inf)
  else if low = "nan".data then
    some .nan
  else
    let intPart := rest.takeWhile pyIsDigitChar
    let r1 := rest.dropWhile pyIsDigitChar
    let fracPart : List Char := match r1 with
      | '.' :: cs => cs.takeWhile pyIsDigitChar
      | _ => []
    let r2 : List Char := match r1 with
      | '.' :: cs => cs.dropWhile pyIsDigitChar
      | _ => r1
    if intPart = [] && fracPart = [] then none
    else
      let mantissa : Int := Int.ofNat (digitsToNat (intPart ++ fracPart))
      let signedMantissa : Int := if signNeg then -mantissa else mantissa
      match r2 with
      | [] => some (.finite (mkRat signedMantissa (10 ^ fracPart.length)))
      | e :: cs =>
        if e = 'e' || e = 'E' then
          let expNeg : Bool := match cs with
            | '-' :: _ => true
            | _ => false
          let ecs : List Char := match cs with
            | '+' :: ds => ds
            | '-' :: ds => ds
            | ds => ds
          let edigits := ecs.takeWhile pyIsDigitChar
          if edigits = [] || ecs.dropWhile pyIsDigitChar ≠ [] then none
          else
            let ex : Int := (if expNeg then -Int.ofNat (digitsToNat edigits)
                             else Int.ofNat (digitsToNat edigits)) -
                            Int.ofNat fracPart.length
            some (.finite
              (if 0 ≤ ex then mkRat (signedMantissa * Int.ofNat (10 ^ ex.toNat)) 1
               else mkRat signedMantissa (10 ^ (-ex).toNat)))
        else none

/-- Python `max(0.0, min(1.0, score))` on a `float` value, following the
builtin comparison semantics: `min(1.0, x)` is `x` when `x < 1.0` and `1.0`
otherwise (so `nan` and `inf` give `1.0`), then `max(0.0, y)` is `y` when
`y > 0.0` and `0.0` otherwise. -/
def pyClamp01 : PyFloatVal → ℚ
  | .finite q => if (if q < 1 then q else 1) > 0 then (if q < 1 then q else 1) else 0
  | .inf => 1
  | .nan => 1
  | .neginf => 0

/-- Score extraction of `PromptImprover.evaluate_format` (`improver.py`,
lines 116-121): parse the judge's response as a float and clamp to `[0,1]`;
on a `ValueError` the error is logged and the score is `0.0`. -/
def evaluate_format_score (score_text : String) : ℚ :=
  match pyFloat score_text with
  | some v => pyClamp01 v
  | none => 0

/-!
Formatting rule catalog (`rules.py`).
-/

/-- SeparatorRule (`rules.py`, lines 29-61). -/
structure SeparatorRule where
  name : String
  description : String
  separator : String
deriving DecidableEq

/-- SeparatorRule.apply: split on newlines, strip each section, rejoin
with the rule's separator. -/
def SeparatorRule.apply (r : SeparatorRule) (prompt : String) : String :=
  pyJoin r.separator ((pySplit prompt "\n").map pyStrip)

/-- SeparatorRule.get_default_rules. -/
def SeparatorRule.get_default_rules : List SeparatorRule :=
  [⟨"Empty", "No separator", ""⟩,
   ⟨"Space", "Single space", " "⟩,
   ⟨"Double Space", "Double space", "  "⟩,
   ⟨"Newline", "Single newline", "\n"⟩,
   ⟨"Double Newline", "Double newline", "\n\n"⟩,
   ⟨"Double Dash", "Double dash", " -- "⟩,
   ⟨"Semicolon", "Semicolon", " ; "⟩,
   ⟨"Pipe", "Double pipe", " || "⟩,
   ⟨"Sep", "Special separator", " <sep> "⟩,
   ⟨"Comma", "Comma", ", "⟩,
   ⟨"Period", "Period", ". "⟩,
   ⟨"Double Colon", "Double colon", ":: "⟩,
   ⟨"Single Colon", "Single colon", ": "⟩,
   ⟨"Tab", "Tab", "\t"⟩,
   ⟨"Newline Tab", "Newline with tab", "\n\t"⟩,
   ⟨"Triple Period", "Triple period", "..."⟩]

/-- CasingRule (`rules.py`, lines 64-85); behaviour is keyed on the name. -/
structure CasingRule where
  name : String
  description : String
deriving DecidableEq

/-- CasingRule.apply. -/
def CasingRule.apply (r : CasingRule) (prompt : String) : String :=
  if r.name = "Title" then pyTitle prompt
  else if r.name = "Lower" then pyLower prompt
  else if r.name = "Upper" then pyUpper prompt
  else prompt

/-- CasingRule.get_default_rules. -/
def CasingRule.get_default_rules : List CasingRule :=
  [⟨"No Change", "Keep original casing"⟩,
   ⟨"Title", "Use title case"⟩,
   ⟨"Lower", "Use lowercase"⟩,
   ⟨"Upper", "Use uppercase"⟩]

/-- ItemFormattingRule (`rules.py`, lines 88-118). -/
structure ItemFormattingRule where
  name : String
  description : String
  format_str : String
deriving DecidableEq

/-- ItemFormattingRule.apply (deprecated digit scan, `rules.py` lines 94-100):
each digit 1-9 occurring anywhere in the text is wrapped with the format
string, scanning digits in increasing order. -/
def ItemFormattingRule.apply (r : ItemFormattingRule) (prompt : String) : String :=
  (List.range' 1 9).foldl
    (fun p i =>
      if pyContains p (toString i) then
        pyReplace p (toString i) (pyFormat r.format_str (toString i))
      else p)
    prompt

/-- ItemFormattingRule.get_default_rules. -/
def ItemFormattingRule.get_default_rules : List ItemFormattingRule :=
  [⟨"Parentheses", "Use parentheses", "({})"⟩,
   ⟨"Dot", "Use dot suffix", "{}."⟩,
   ⟨"Paren", "Use right parenthesis", "{})"⟩,
   ⟨"Underscore", "Use underscore suffix", "{}_"⟩,
   ⟨"Brackets", "Use square brackets", "[{}]"⟩,
   ⟨"Angle", "Use angle brackets", "<{}>"⟩,
   ⟨"Roman Lower", "Use lowercase roman numerals with parentheses", "({})"⟩,
   ⟨"Roman Upper", "Use uppercase roman numerals with parentheses", "({})"⟩,
   ⟨"Alpha Lower", "Use lowercase letters with parentheses", "({})"⟩,
   ⟨"Alpha Upper", "Use uppercase letters with parentheses", "({})"⟩,
   ⟨"Numeric", "Use numeric with parentheses", "({})"⟩]

/-- EnumerationRule (`rules.py`, lines 121-184). -/
structure EnumerationRule where
  name : String
  description : String
  enum_format : String
deriving DecidableEq

/-- Replacement table of `EnumerationRule._convert_roman`. -/
def romanMap : List (Nat × String) :=
  [(1, "I"), (2, "II"), (3, "III"), (4, "IV"), (5, "V"),
   (6, "VI"), (7, "VII"), (8, "VIII"), (9, "IX"), (10, "X")]

/-- Replacement table of `EnumerationRule._convert_alpha`. -/
def alphaMap : List (Nat × String) :=
  [(1, "A"), (2, "B"), (3, "C"), (4, "D"), (5, "E"),
   (6, "F"), (7, "G"), (8, "H"), (9, "I"), (10, "J")]

/-- EnumerationRule._convert_roman (`rules.py`, lines 138-155): for each
table entry in order, replace every occurrence of the decimal digits of the
key by the (optionally lowercased) numeral. -/
def EnumerationRule.convert_roman (prompt : String) (upper : Bool) : String :=
  romanMap.foldl
    (fun p entry =>
      pyReplace p (toString entry.1) (if upper then entry.2 else pyLower entry.2))
    prompt

/-- EnumerationRule._convert_alpha (`rules.py`, lines 157-174). -/
def EnumerationRule.convert_alpha (prompt : String) (upper : Bool) : String :=
  alphaMap.foldl
    (fun p entry =>
      pyReplace p (toString entry.1) (if upper then entry.2 else pyLower entry.2))
    prompt

/-- EnumerationRule.apply (`rules.py`, lines 127-136). -/
def EnumerationRule.apply (r : EnumerationRule) (prompt : String) : String :=
  if r.enum_format = "roman_lower" then EnumerationRule.convert_roman prompt false
  else if r.enum_format = "roman_upper" then EnumerationRule.convert_roman prompt true
  else if r.enum_format = "alpha_lower" then EnumerationRule.convert_alpha prompt false
  else if r.enum_format = "alpha_upper" then EnumerationRule.convert_alpha prompt true
  else prompt

/-- EnumerationRule.get_default_rules. -/
def EnumerationRule.get_default_rules : List EnumerationRule :=
  [⟨"Numeric", "Use numeric enumeration", "numeric"⟩,
   ⟨"Roman Upper", "Use uppercase roman numerals", "roman_upper"⟩,
   ⟨"Roman Lower", "Use lowercase roman numerals", "roman_lower"⟩,
   ⟨"Alpha Upper", "Use uppercase letters", "alpha_upper"⟩,
   ⟨"Alpha Lower", "Use lowercase letters", "alpha_lower"⟩]

/-!
Prompt template model (`templates.py`).  A template carries an optional
back-reference to the owning reformatter's rule lists (the Python code
stores `self.reformatter` on the template object and tests for it with
`hasattr`); the back-reference is modelled as an `Option` field holding
the four rule lists.
-/

/-- Rule lists of a `PromptReformatter` as seen through the template
back-reference (`reformatter.py`, dataclass fields, lines 18-21). -/
structure ReformatterRules where
  separator_rules : List SeparatorRule
  casing_rules : List CasingRule
  item_formatting_rules : List ItemFormattingRule
  enumeration_rules : List EnumerationRule
deriving DecidableEq

/-- Example (`templates.py`, lines 5-11). -/
structure Example where
  input : String
  output : String
deriving DecidableEq

/-- Example.format. -/
def Example.format (e : Example) : String :=
  "Input: " ++ e.input ++ "\nOutput: " ++ e.output

/-- Python value stored under a template field: plain text, a list of
`Example` objects, or a list of option strings.  (Heterogeneous lists,
which Python would admit, are outside the model; the code only ever
stores these three shapes.) -/
inductive Value where
  | vStr (s : String)
  | vExamples (exs : List Example)
  | vOptions (opts : List String)
deriving DecidableEq

/-- Python `isinstance(v, list)`. -/
def Value.isList : Value → Bool
  | .vStr _ => false
  | .vExamples _ => true
  | .vOptions _ => true

/-- Elements of a list value that are `Example` instances (the Examples
branch of `PromptTemplate.format` silently skips everything else). -/
def Value.asExamples : Value → List Example
  | .vExamples exs => exs
  | _ => []

/-- Single-quote character, built by code point to keep the source free of
quote-escape sequences. -/
def reprQuote : String := String.mk [Char.ofNat 39]

/-- Python `repr` of a string without special characters. -/
def pyStrRepr (s : String) : String := reprQuote ++ s ++ reprQuote

/-- Python dataclass `repr` of an `Example` (for strings without special
characters). -/
def Example.pyRepr (e : Example) : String :=
  "Example(input=" ++ pyStrRepr e.input ++ ", output=" ++ pyStrRepr e.output ++ ")"

/-- Elements of a list value as Python `str()` renders each of them
(used by the Options branch, which interpolates each element into an
f-string). -/
def Value.asOptionItems : Value → List String
  | .vOptions opts => opts
  | .vExamples exs => exs.map Example.pyRepr
  | .vStr _ => []

/-- Python `str(v)` / f-string interpolation of a stored value. -/
def Value.pyStr : Value → String
  | .vStr s => s
  | .vExamples exs => "[" ++ pyJoin ", " (exs.map Example.pyRepr) ++ "]"
  | .vOptions opts => "[" ++ pyJoin ", " (opts.map pyStrRepr) ++ "]"

/-- Python dict of field values, as an association list with unique keys;
lookup returns the first binding. -/
abbrev FieldValues : Type := List (String × Value)

/-- Python `fv[k]` as an optional lookup. -/
def lookupFV (fv : FieldValues) (k : String) : Option Value :=
  (fv.find? (fun p => p.1 == k)).map (fun p => p.2)

/-- Python `k in fv`. -/
def hasKeyFV (fv : FieldValues) (k : String) : Bool :=
  (lookupFV fv k).isSome

/-- Python `fv[k] = v` (update in place, or append a new binding). -/
def dictInsert (fv : FieldValues) (k : String) (v : Value) : FieldValues :=
  if hasKeyFV fv k then fv.map (fun p => if p.1 == k then (k, v) else p)
  else fv ++ [(k, v)]

/-- Empty dict. -/
def emptyFV : FieldValues := []

/-- PromptTemplate (`templates.py`, lines 14-20) plus the dynamically
attached `reformatter` attribute (set by `PromptReformatter.format`,
`reformatter.py` line 89; absent on a freshly constructed template). -/
structure PromptTemplate where
  name : String
  description : String
  fields : List String
  required_fields : List String
  separator : String := "\n\n"
  reformatter : Option ReformatterRules := none
deriving DecidableEq

/-- Label casing used inside `PromptTemplate.format` (`templates.py`,
lines 30-33 and 59-75): the first casing rule of the attached reformatter
applies when present. -/
def appliedCasing (ref : Option ReformatterRules) (label : String) : String :=
  match ref with
  | some r =>
    match r.casing_rules with
    | c :: _ => c.apply label
    | [] => label
  | none => label

/-- Separator between a field label and its value (`templates.py`,
lines 35-38): the first separator rule's separator string when the
reformatter is attached and has separator rules, newline otherwise. -/
def fieldSeparator (ref : Option ReformatterRules) : String :=
  match ref with
  | some r =>
    match r.separator_rules with
    | s :: _ => s.separator
    | [] => "\n"
  | none => "\n"

/-- Index token of an enumerated item (`templates.py`, lines 45-57 and
92-102): start from the decimal index, apply the first enumeration rule,
then wrap with the first item-formatting rule's format string; both steps
only when the reformatter is attached and the respective list is
non-empty. -/
def formatItemNumber (ref : Option ReformatterRules) (i : Nat) : String :=
  match ref with
  | none => toString i
  | some r =>
    let n1 :=
      match r.enumeration_rules with
      | en :: _ => en.apply (toString i)
      | [] => toString i
    match r.item_formatting_rules with
    | it :: _ => pyFormat it.format_str n1
    | [] => n1

/-- One formatted example block (`templates.py`, lines 77-81). -/
def exampleBlock (ref : Option ReformatterRules) (fsep : String)
    (p : Nat × Example) : String :=
  appliedCasing ref "Example" ++ " " ++ formatItemNumber ref p.1 ++ fsep ++
  appliedCasing ref "Input" ++ ": " ++ p.2.input ++ fsep ++
  appliedCasing ref "Output" ++ ": " ++ p.2.output

/-- Section produced for one declared field by the loop body of
`PromptTemplate.format` (`templates.py`, lines 28-123): `none` when the
field is absent from the supplied values (and when an Examples list
yields no formatted example, line 82). -/
def renderField (ref : Option ReformatterRules) (field_values : FieldValues)
    (field : String) : Option String :=
  match lookupFV field_values field with
  | none => none
  | some v =>
    let formatted_field := appliedCasing ref field
    let fsep := fieldSeparator ref
    if field == "Examples" && v.isList then
      let formatted_examples :=
        (pyEnumerate1 v.asExamples).map (exampleBlock ref fsep)
      if formatted_examples.isEmpty then none
      else some (formatted_field ++ fsep ++ pyJoin "\n\n" formatted_examples)
    else if field == "Options" && v.isList then
      let formatted_options :=
        match ref with
        | some _ =>
          (pyEnumerate1 v.asOptionItems).map
            (fun p => formatItemNumber ref p.1 ++ fsep ++ p.2)
        | none => []
      let options_separator :=
        match ref with
        | some r => if r.separator_rules.isEmpty then "\n" else " -- "
        | none => "\n"
      some (formatted_field ++ fsep ++ pyJoin options_separator formatted_options)
    else
      some (formatted_field ++ fsep ++ v.pyStr)

/-- PromptTemplate.format (`templates.py`, lines 22-126).  Raises
(`Except.error`) the list of missing required fields; otherwise renders
the present declared fields in declared order and joins the sections with
a double newline. -/
def PromptTemplate.format (t : PromptTemplate) (field_values : FieldValues) :
    Except (List String) String :=
  let missing := t.required_fields.filter (fun f => !(hasKeyFV field_values f))
  if missing.isEmpty then
    .ok (pyJoin "\n\n" (t.fields.filterMap (renderField t.reformatter field_values)))
  else .error missing

/-- PromptTemplate.extract_fields (`templates.py`, lines 128-169):
best-effort inverse parse of a rendered prompt. -/
def PromptTemplate.extract_fields (t : PromptTemplate) (text : String) :
    FieldValues :=
  (pySplit text t.separator).foldl (fun field_values section₀ =>
    let sec := pyStrip section₀
    match t.fields.find? (fun field => pyStartsWith sec (field ++ ":")) with
    | none => field_values
    | some field =>
      let value := pyStrip (pyDrop sec (pyLen (field ++ ":")))
      if field == "Examples" then
        let examples := (pySplit value "\n\n").filterMap (fun es =>
          if pyContains es "Input:" && pyContains es "Output:" then
            let parts := pySplit es "Output:"
            some (Example.mk (pyStrip (pyReplace (parts.headD "") "Input:" ""))
                             (pyStrip (parts.getD 1 "")))
          else none)
        if examples.isEmpty then field_values
        else dictInsert field_values field (.vExamples examples)
      else if field == "Options" then
        let options := (pySplit value "\n").filterMap (fun line =>
          if !(pyStrip line).isEmpty && pyContains line ". " then
            let parts := pySplit line ". "
            some (pyStrip (pyJoin ". " parts.tail))
          else none)
        if options.isEmpty then field_values
        else dictInsert field_values field (.vOptions options)
      else dictInsert field_values field (.vStr value)) emptyFV

/-- GENERAL_TEMPLATE (`templates.py`, lines 172-177). -/
def GENERAL_TEMPLATE : PromptTemplate :=
  { name := "general"
    description := "A template for few-shot learning with task description and input-output examples"
    fields := ["Task", "Examples", "Input"]
    required_fields := ["Task", "Input"] }

/-- MULTIPLE_CHOICE_TEMPLATE (`templates.py`, lines 179-184). -/
def MULTIPLE_CHOICE_TEMPLATE : PromptTemplate :=
  { name := "multiple_choice"
    description := "A template for multiple choice questions with examples"
    fields := ["Task", "Examples", "Question", "Options"]
    required_fields := ["Task", "Question", "Options"] }

/-!
Reformatter (`reformatter.py`).
-/

/-- PromptReformatter state (`reformatter.py`, lines 16-22): four rule
lists and the active template. -/
structure PromptReformatter where
  separator_rules : List SeparatorRule
  casing_rules : List CasingRule
  item_formatting_rules : List ItemFormattingRule
  enumeration_rules : List EnumerationRule
  template : PromptTemplate
deriving DecidableEq

/-- Constructor plus `__post_init__` (`reformatter.py`, lines 24-34):
every empty rule list is replaced by the axis's default catalog and a
missing template by the general template. -/
def PromptReformatter.make (separator_rules : List SeparatorRule)
    (casing_rules : List CasingRule)
    (item_formatting_rules : List ItemFormattingRule)
    (enumeration_rules : List EnumerationRule)
    (template : Option PromptTemplate) : PromptReformatter :=
  { separator_rules :=
      if separator_rules.isEmpty then SeparatorRule.get_default_rules
      else separator_rules
    casing_rules :=
      if casing_rules.isEmpty then CasingRule.get_default_rules
      else casing_rules
    item_formatting_rules :=
      if item_formatting_rules.isEmpty then ItemFormattingRule.get_default_rules
      else item_formatting_rules
    enumeration_rules :=
      if enumeration_rules.isEmpty then EnumerationRule.get_default_rules
      else enumeration_rules
    template := template.getD GENERAL_TEMPLATE }

/-- Rule lists of a reformatter, as stored into the template
back-reference. -/
def PromptReformatter.rules (r : PromptReformatter) : ReformatterRules :=
  ⟨r.separator_rules, r.casing_rules, r.item_formatting_rules, r.enumeration_rules⟩

/-- PromptReformatter.format_field_name (`reformatter.py`, lines 36-40). -/
def PromptReformatter.format_field_name (r : PromptReformatter)
    (field_name : String) : String :=
  match r.casing_rules with
  | c :: _ => c.apply field_name
  | [] => field_name

/-- PromptReformatter.format_number (`reformatter.py`, lines 42-49); note
that this one uses the deprecated digit-scanning
`ItemFormattingRule.apply`. -/
def PromptReformatter.format_number (r : PromptReformatter) (number : Nat) : String :=
  let n0 := toString number
  let n1 :=
    match r.enumeration_rules with
    | e :: _ => e.apply n0
    | [] => n0
  match r.item_formatting_rules with
  | i :: _ => i.apply n1
  | [] => n1

/-- Formatting summary (`reformatter.py`, lines 51-64): the name of the
first rule of each axis, `"None"` for an emptied axis. -/
structure FormattingSummary where
  separator : String
  casing : String
  item_formatting : String
  enumeration : String
deriving DecidableEq

/-- PromptReformatter.get_formatting_summary. -/
def PromptReformatter.get_formatting_summary (r : PromptReformatter) :
    FormattingSummary :=
  { separator :=
      match r.separator_rules with
      | s :: _ => s.name
      | [] => "None"
    casing :=
      match r.casing_rules with
      | c :: _ => c.name
      | [] => "None"
    item_formatting :=
      match r.item_formatting_rules with
      | i :: _ => i.name
      | [] => "None"
    enumeration :=
      match r.enumeration_rules with
      | e :: _ => e.name
      | [] => "None" }

/-- Input to `PromptReformatter.format`: raw text or structured field
values (`Union[str, Dict[str, Any]]`). -/
inductive FormatInput where
  | raw (s : String)
  | fields (fv : FieldValues)
deriving DecidableEq

/-- Returned triple of `PromptReformatter.format`. -/
structure FormatOutput where
  original_prompt : String
  formatted_prompt : String
  formatting_summary : FormattingSummary
deriving DecidableEq

/-- State mutation of `reformatter.py` line 89
(`self.template.reformatter = self`). -/
def PromptReformatter.withBackref (r : PromptReformatter) : PromptReformatter :=
  { r with template := { r.template with reformatter := some r.rules } }

/-- PromptReformatter.format (`reformatter.py`, lines 66-97).  Returns the
post-call reformatter state (the template back-reference is installed
before the formatted rendering, and only after the original prompt has
been computed) together with the result triple; a `ValueError` raised by
`PromptTemplate.format` propagates as `Except.error`. -/
def PromptReformatter.format (r : PromptReformatter) (input_data : FormatInput) :
    PromptReformatter × Except (List String) FormatOutput :=
  let origE : Except (List String) String :=
    match input_data with
    | .raw s => .ok s
    | .fields fv => r.template.format fv
  match origE with
  | .error m => (r, .error m)
  | .ok original_prompt =>
    let field_values : FieldValues :=
      match input_data with
      | .raw s =>
        let extracted := r.template.extract_fields s
        if extracted.isEmpty && !r.template.required_fields.isEmpty then
          [(r.template.required_fields.headD "", .vStr s)]
        else extracted
      | .fields fv => fv
    let r' := r.withBackref
    match r'.template.format field_values with
    | .error m => (r', .error m)
    | .ok formatted_prompt =>
      (r', .ok ⟨original_prompt, formatted_prompt, r.get_formatting_summary⟩)

/-- A rule object passed to `add_rule` (Python passes it as `Any`; the
embedding tags it with its axis type). -/
inductive Rule where
  | sep (r : SeparatorRule)
  | cas (r : CasingRule)
  | item (r : ItemFormattingRule)
  | enum (r : EnumerationRule)
deriving DecidableEq

/-- PromptReformatter.add_rule (`reformatter.py`, lines 99-109): insert
the rule at the front of the named axis's list; an unknown axis name
raises `ValueError` and changes nothing.  A rule object whose type does
not match a recognized axis name would be inserted uninspected by the
dynamically typed Python code and crash later rendering; that ill-typed
case is unrepresentable in the typed lists and is mapped to a marker
error. -/
def PromptReformatter.add_rule (self : PromptReformatter) (rule_type : String)
    (rule : Rule) : Except String PromptReformatter :=
  if rule_type = "separator" then
    match rule with
    | .sep ru => .ok { self with separator_rules := ru :: self.separator_rules }
    | _ => .error "unmodelled: rule object does not match axis"
  else if rule_type = "casing" then
    match rule with
    | .cas ru => .ok { self with casing_rules := ru :: self.casing_rules }
    | _ => .error "unmodelled: rule object does not match axis"
  else if rule_type = "item_formatting" then
    match rule with
    | .item ru => .ok { self with item_formatting_rules := ru :: self.item_formatting_rules }
    | _ => .error "unmodelled: rule object does not match axis"
  else if rule_type = "enumeration" then
    match rule with
    | .enum ru => .ok { self with enumeration_rules := ru :: self.enumeration_rules }
    | _ => .error "unmodelled: rule object does not match axis"
  else .error ("Unknown rule type: " ++ rule_type)

/-- PromptReformatter.set_template (`reformatter.py`, lines 111-115),
over the built-in registry DEFAULT_TEMPLATES. -/
def PromptReformatter.set_template (self : PromptReformatter)
    (template_name : String) : Except String PromptReformatter :=
  if template_name = "general" then .ok { self with template := GENERAL_TEMPLATE }
  else if template_name = "multiple_choice" then
    .ok { self with template := MULTIPLE_CHOICE_TEMPLATE }
  else .error ("Unknown template: " ++ template_name)

/-!
Candidate sampler and search loop (`improver.py`).  The external
collaborators are passed in as oracles: `sample` yields the `idx`-th
random candidate drawn by `sample_candidate`, `respond` is the completion
collaborator (`get_model_response`), and `judge` is the judge
collaborator's raw text response, which `evaluate_format` parses and
clamps.  All oracle calls are total, which models the claims' premise
that every collaborator and judge call succeeds.
-/

/-- FormatCandidate (`improver.py`, lines 32-47). -/
structure FormatCandidate where
  separator_rule : SeparatorRule
  casing_rule : CasingRule
  item_formatting_rule : ItemFormattingRule
  enumeration_rule : EnumerationRule
  score : Option ℚ := none
deriving DecidableEq

/-- PromptImprover.format_prompt (`improver.py`, lines 131-141): render
the field values with a fresh reformatter holding exactly the candidate's
four rules (and, the template argument being omitted, the general
template).  The error branch is unreachable from `improve`, whose
baseline render has already validated the required fields. -/
def PromptImprover.format_prompt (field_values : FieldValues)
    (candidate : FormatCandidate) : String :=
  let reformatter := PromptReformatter.make
    [candidate.separator_rule] [candidate.casing_rule]
    [candidate.item_formatting_rule] [candidate.enumeration_rule] none
  match (reformatter.format (.fields field_values)).2 with
  | .ok out => out.formatted_prompt
  | .error _ => ""

/-- Template selection of `PromptImprover.improve` (`improver.py`, lines
149-155): multiple choice when both Question and Options are present
(defaulting Input to the empty string), general otherwise. -/
def improveSetup (field_values : FieldValues) : PromptTemplate × FieldValues :=
  if hasKeyFV field_values "Question" && hasKeyFV field_values "Options" then
    (MULTIPLE_CHOICE_TEMPLATE,
     if hasKeyFV field_values "Input" then field_values
     else dictInsert field_values "Input" (.vStr ""))
  else (GENERAL_TEMPLATE, field_values)

/-- One iteration of the inner search loop body (`improver.py`, lines
168-176): sample a candidate, render it, obtain the model response, score
it via the judge, and record the score on the candidate. -/
def improveEvalOne (field_values : FieldValues)
    (original_prompt original_response : String)
    (sample : Nat → FormatCandidate) (respond : String → String)
    (judge : String → String → String → String) (idx : Nat) :
    FormatCandidate × ℚ × String :=
  let candidate := sample idx
  let formatted_prompt := PromptImprover.format_prompt field_values candidate
  let model_response := respond formatted_prompt
  let score := evaluate_format_score (judge original_prompt original_response model_response)
  ({ candidate with score := some score }, score, model_response)

/-- The sequence of scored candidates produced by the nested loop over
`num_iterations × num_candidates` (the two nested `for` loops evaluate
that many candidates sequentially). -/
def improvePairs (field_values : FieldValues)
    (original_prompt original_response : String)
    (sample : Nat → FormatCandidate) (respond : String → String)
    (judge : String → String → String → String) (total : Nat) :
    List (FormatCandidate × ℚ × String) :=
  (List.range total).map
    (improveEvalOne field_values original_prompt original_response sample respond judge)

/-- Best-so-far tracking of the search loop (`improver.py`, lines
160-182): the best score starts at negative infinity (`⊥`) and is
replaced exactly when a candidate's score strictly exceeds it. -/
def runBest : List (FormatCandidate × ℚ × String) → WithBot ℚ →
    Option FormatCandidate → String → WithBot ℚ × Option FormatCandidate × String
  | [], best_score, best_candidate, best_response =>
    (best_score, best_candidate, best_response)
  | (c, s, resp) :: rest, best_score, best_candidate, best_response =>
    if best_score < (s : WithBot ℚ) then runBest rest (s : WithBot ℚ) (some c) resp
    else runBest rest best_score best_candidate best_response

/-- Result dictionary of `PromptImprover.improve` (`improver.py`, lines
190-199).  `all_candidates` mirrors the loop's internal record of scored
candidates (the Python dict exposes its length as
`num_candidates_evaluated`, its scores as `all_scores`, and the best
entry as `best_format`). -/
structure ImproveResult where
  original_prompt : String
  improved_prompt : String
  original_response : String
  improved_response : String
  improvement_score : WithBot ℚ
  best_format : Option FormatCandidate
  num_candidates_evaluated : Nat
  all_scores : List ℚ
  all_candidates : List FormatCandidate
deriving DecidableEq

/-- PromptImprover.improve (`improver.py`, lines 143-199). -/
def PromptImprover.improve (field_values : FieldValues)
    (num_candidates num_iterations : Nat)
    (sample : Nat → FormatCandidate) (respond : String → String)
    (judge : String → String → String → String) :
    Except (List String) ImproveResult :=
  let setup := improveSetup field_values
  let reformatter := PromptReformatter.make [] [] [] [] (some setup.1)
  match (reformatter.format (.fields setup.2)).2 with
  | .error m => .error m
  | .ok out =>
    let original_prompt := out.original_prompt
    let original_response := respond original_prompt
    let pairs := improvePairs setup.2 original_prompt original_response
      sample respond judge (num_iterations * num_candidates)
    let res := runBest pairs ⊥ none original_response
    let all_candidates := pairs.map (fun p => p.1)
    let best_formatted_prompt :=
      match res.2.1 with
      | some c => PromptImprover.format_prompt setup.2 c
      | none => original_prompt
    .ok
      { original_prompt := original_prompt
        improved_prompt := best_formatted_prompt
        original_response := original_response
        improved_response := res.2.2
        improvement_score := res.1
        best_format := res.2.1
        num_candidates_evaluated := all_candidates.length
        all_scores := pairs.map (fun p => p.2.1)
        all_candidates := all_candidates }

/-!
Concrete fixtures used by witnesses and counterexamples.
-/

/-- Default reformatter, as produced by `PromptReformatter()` in a fresh
process. -/
def defaultReformatter : PromptReformatter :=
  PromptReformatter.make [] [] [] [] none

/-- Field values for the general template. -/
def taskInputFV : FieldValues :=
  [("Task", .vStr "a"), ("Input", .vStr "b")]

/-- A reformatter whose active rules are Space / No Change / Parentheses /
Numeric. -/
def spaceReformatter : PromptReformatter :=
  PromptReformatter.make
    [⟨"Space", "Single space", " "⟩]
    [⟨"No Change", "Keep original casing"⟩]
    [⟨"Parentheses", "Use parentheses", "({})"⟩]
    [⟨"Numeric", "Use numeric enumeration", "numeric"⟩]
    none

/-- Field values with one example, for the general template. -/
def exampleFV : FieldValues :=
  [("Task", .vStr "t"), ("Examples", .vExamples [⟨"x", "y"⟩]), ("Input", .vStr "i")]

/-- The uppercase Roman numeral enumeration rule from the default catalog. -/
def romanUpperRule : EnumerationRule :=
  ⟨"Roman Upper", "Use uppercase roman numerals", "roman_upper"⟩

/-- The lowercase Roman numeral enumeration rule from the default catalog. -/
def romanLowerRule : EnumerationRule :=
  ⟨"Roman Lower", "Use lowercase roman numerals", "roman_lower"⟩

/-- The Upper casing rule from the default catalog. -/
def upperRule : CasingRule := ⟨"Upper", "Use uppercase"⟩

/-- The Lower casing rule from the default catalog. -/
def lowerRule : CasingRule := ⟨"Lower", "Use lowercase"⟩

/-- The Title casing rule from the default catalog. -/
def titleRule : CasingRule := ⟨"Title", "Use title case"⟩

/-- Candidate oracle for a concrete `improve` run: always the same
candidate. -/
def wSample : Nat → FormatCandidate := fun _ =>
  ⟨⟨"Space", "Single space", " "⟩, ⟨"Upper", "Use uppercase"⟩,
   ⟨"Dot", "Use dot suffix", "{}."⟩, ⟨"Numeric", "Use numeric enumeration", "numeric"⟩, none⟩

/-- Completion oracle for a concrete `improve` run. -/
def wRespond : String → String := fun s => "R:" ++ s

/-- Judge oracle for a concrete `improve` run. -/
def wJudge : String → String → String → String := fun _ _ _ => "0.5"

/-- The result of the concrete `improve` run used as a witness. -/
def wImproveResult : ImproveResult :=
  (PromptImprover.improve taskInputFV 1 2 wSample wRespond wJudge).toOption.getD
    ⟨"", "", "", "", ⊥, none, 0, [], []⟩

/-- Decidable equality of `Except` results, for evaluating the embedding
on concrete inputs. -/
instance {ε α : Type} [DecidableEq ε] [DecidableEq α] : DecidableEq (Except ε α) :=
  fun x y =>
    match x, y with
    | .error a, .error b =>
      if h : a = b then isTrue (by rw [h])
      else isFalse (fun hc => h (Except.error.inj hc))
    | .ok a, .ok b =>
      if h : a = b then isTrue (by rw [h])
      else isFalse (fun hc => h (Except.ok.inj hc))
    | .error _, .ok _ => isFalse (fun hc => Except.noConfusion hc)
    | .ok _, .error _ => isFalse (fun hc => Except.noConfusion hc)

/-!
Helper lemmas.
-/

theorem charOfNat_toNat_small : ∀ n < 128, (Char.ofNat n).toNat = n := by decide

theorem pyIsLowerChar_iff (c : Char) :
    pyIsLowerChar c = true ↔ 97 ≤ c.toNat ∧ c.toNat ≤ 122 := by
  simp [pyIsLowerChar]

theorem pyIsUpperChar_iff (c : Char) :
    pyIsUpperChar c = true ↔ 65 ≤ c.toNat ∧ c.toNat ≤ 90 := by
  simp [pyIsUpperChar]

theorem asciiUpperChar_toNat (c : Char) (h : pyIsLowerChar c = true) :
    (asciiUpperChar c).toNat = c.toNat - 32 := by
  have hb := (pyIsLowerChar_iff c).mp h
  rw [asciiUpperChar, if_pos h]
  exact charOfNat_toNat_small _ (by omega)

theorem asciiLowerChar_toNat (c : Char) (h : pyIsUpperChar c = true) :
    (asciiLowerChar c).toNat = c.toNat + 32 := by
  have hb := (pyIsUpperChar_iff c).mp h
  rw [asciiLowerChar, if_pos h]
  exact charOfNat_toNat_small _ (by omega)

theorem asciiUpperChar_idem (c : Char) :
    asciiUpperChar (asciiUpperChar c) = asciiUpperChar c := by
  by_cases h : pyIsLowerChar c = true
  · have h1 := asciiUpperChar_toNat c h
    have hb := (pyIsLowerChar_iff c).mp h
    have h2 : pyIsLowerChar (asciiUpperChar c) = false := by
      rw [Bool.eq_false_iff]
      intro hcon
      have := (pyIsLowerChar_iff _).mp hcon
      omega
    rw [asciiUpperChar, h2]
    simp
  · have h' : pyIsLowerChar c = false := Bool.eq_false_iff.mpr h
    have hfix : asciiUpperChar c = c := by
      rw [asciiUpperChar, h']
      simp
    rw [hfix]
    exact hfix

theorem asciiLowerChar_idem (c : Char) :
    asciiLowerChar (asciiLowerChar c) = asciiLowerChar c := by
  by_cases h : pyIsUpperChar c = true
  · have h1 := asciiLowerChar_toNat c h
    have hb := (pyIsUpperChar_iff c).mp h
    have h2 : pyIsUpperChar (asciiLowerChar c) = false := by
      rw [Bool.eq_false_iff]
      intro hcon
      have := (pyIsUpperChar_iff _).mp hcon
      omega
    rw [asciiLowerChar, h2]
    simp
  · have h' : pyIsUpperChar c = false := Bool.eq_false_iff.mpr h
    have hfix : asciiLowerChar c = c := by
      rw [asciiLowerChar, h']
      simp
    rw [hfix]
    exact hfix

theorem listMapIdem {α : Type} (g : α → α) (hg : ∀ a, g (g a) = g a) :
    ∀ l : List α, (l.map g).map g = l.map g := by
  intro l
  induction l with
  | nil => rfl
  | cons a t ih => simp only [List.map_cons, hg, ih]

theorem asciiUpperChar_fix (c : Char) (h : pyIsUpperChar c = true) :
    asciiUpperChar c = c := by
  have hb := (pyIsUpperChar_iff c).mp h
  rw [asciiUpperChar, if_neg]
  intro hcon
  have := (pyIsLowerChar_iff c).mp hcon
  omega

theorem asciiLowerChar_fix (c : Char) (h : pyIsLowerChar c = true) :
    asciiLowerChar c = c := by
  have hb := (pyIsLowerChar_iff c).mp h
  rw [asciiLowerChar, if_neg]
  intro hcon
  have := (pyIsUpperChar_iff c).mp hcon
  omega

theorem pyTitleGo_fixed : ∀ (l : List Char) (p : Bool),
    titleCasedOK p l = true → pyTitleGo p l = l := by
  intro l
  induction l with
  | nil => intro p _; rfl
  | cons c cs ih =>
    intro p h
    rw [titleCasedOK, Bool.and_eq_true] at h
    obtain ⟨h1, h2⟩ := h
    rw [pyTitleGo, ih _ h2]
    by_cases ha : pyIsAlphaChar c = true
    · rw [if_pos ha] at h1 ⊢
      by_cases hp : p = true
      · rw [if_pos hp] at h1 ⊢
        rw [asciiLowerChar_fix c h1]
      · have hp' : p = false := Bool.eq_false_iff.mpr hp
        rw [hp'] at h1 ⊢
        simp only [if_false, Bool.false_eq_true, ite_false] at h1 ⊢
        rw [asciiUpperChar_fix c h1]
    · have ha' : pyIsAlphaChar c = false := Bool.eq_false_iff.mpr ha
      rw [ha'] at h1 ⊢
      simp

/-!
Claim theorems.
-/

/-- C3: the uppercase Roman-numeral conversion maps index 1 to "I", 4 to
"IV" and 9 to "IX", and for every index 1..10 the lowercase variant equals
the lowercase of the uppercase variant; but index 10 is mapped to "I0",
not "X": the sequential digit replacement rewrites the "1" of "10" before
the table entry for 10 is reached, contradicting the code's own
`roman_map` table (and the spec).  The conversion is applied to the
decimal index string, as `PromptTemplate.format` does through
`EnumerationRule.apply`. -/
theorem c3_roman_numeral_table :
    romanUpperRule.apply "1" = "I" ∧
    romanUpperRule.apply "4" = "IV" ∧
    romanUpperRule.apply "9" = "IX" ∧
    romanUpperRule.apply "10" = "I0" ∧
    ¬ romanUpperRule.apply "10" = "X" ∧
    ((List.range' 1 10).all fun i =>
      romanLowerRule.apply (toString i) == pyLower (romanUpperRule.apply (toString i))) = true := by
  decide

/-- C4: the recorded candidate score is the parsed float clamped to
`[0,1]`: "1.5" is recorded as 1.0, "-3" as 0.0, an unparseable response
is recorded as 0.0 (with a logged judge-format error; the except branch
returns rather than raising, so the search loop continues), every
successfully parsed finite value is clamped to `max 0 (min 1 q)`, and
every recorded score lies in `[0,1]`. -/
theorem c4_judge_score_clamping :
    evaluate_format_score "1.5" = 1 ∧
    evaluate_format_score "-3" = 0 ∧
    evaluate_format_score "abc" = 0 ∧
    (∀ s, pyFloat s = none → evaluate_format_score s = 0) ∧
    (∀ s q, pyFloat s = some (.finite q) → evaluate_format_score s = max 0 (min 1 q)) ∧
    (∀ s, 0 ≤ evaluate_format_score s ∧ evaluate_format_score s ≤ 1) := by
  refine ⟨by decide, by decide, by decide, ?_, ?_, ?_⟩
  · intro s h
    simp [evaluate_format_score, h]
  · intro s q h
    simp only [evaluate_format_score, h, pyClamp01]
    simp only [min_def, max_def]
    split_ifs <;> linarith
  · intro s
    unfold evaluate_format_score
    cases hp : pyFloat s with
    | none => norm_num
    | some v =>
      cases v with
      | finite q =>
        simp only [pyClamp01]
        split_ifs <;> constructor <;> linarith
      | inf => simp [pyClamp01]
      | neginf => simp [pyClamp01]
      | nan => simp [pyClamp01]

/-- C4 witness: concrete instances discharging the hypotheses of the
universally quantified parts of the C4 theorem. -/
theorem c4_witness :
    (pyFloat "xyz" = none ∧ evaluate_format_score "xyz" = 0) ∧
    (pyFloat "0.85" = some (.finite (mkRat 17 20)) ∧
      evaluate_format_score "0.85" = max 0 (min 1 (mkRat 17 20))) ∧
    (0 ≤ evaluate_format_score "7" ∧ evaluate_format_score "7" ≤ 1) :=
  ⟨⟨by decide, c4_judge_score_clamping.2.2.2.1 "xyz" (by decide)⟩,
   ⟨by decide, c4_judge_score_clamping.2.2.2.2.1 "0.85" (mkRat 17 20) (by decide)⟩,
   c4_judge_score_clamping.2.2.2.2.2 "7"⟩

/-- C9: applying the Upper casing rule twice equals applying it once, the
same for the Lower casing rule, and the Title casing rule leaves
already-title-cased ASCII text unchanged. -/
theorem c9_casing_idempotence (s t : String) (hs : s ≠ "") (ht : t ≠ "")
    (hascii : ∀ c ∈ t.data, c.toNat < 128)
    (htitle : titleCasedOK false t.data = true) :
    upperRule.apply (upperRule.apply s) = upperRule.apply s ∧
    lowerRule.apply (lowerRule.apply s) = lowerRule.apply s ∧
    titleRule.apply t = t := by
  refine ⟨?_, ?_, ?_⟩
  · simp only [upperRule, CasingRule.apply, pyUpper]
    norm_num
    exact congrArg String.mk (listMapIdem asciiUpperChar asciiUpperChar_idem s.data)
  · simp only [lowerRule, CasingRule.apply, pyLower]
    norm_num
    exact congrArg String.mk (listMapIdem asciiLowerChar asciiLowerChar_idem s.data)
  · simp only [titleRule, CasingRule.apply, pyTitle]
    norm_num
    rw [pyTitleGo_fixed t.data false htitle]

/-- C9 witness: concrete instantiation of the idempotence theorem. -/
theorem c9_witness :
    ("Ab c" ≠ "" ∧ "Two Words, Ok!" ≠ "" ∧
      (∀ c ∈ "Two Words, Ok!".data, c.toNat < 128) ∧
      titleCasedOK false "Two Words, Ok!".data = true) ∧
    upperRule.apply (upperRule.apply "Ab c") = upperRule.apply "Ab c" ∧
    lowerRule.apply (lowerRule.apply "Ab c") = lowerRule.apply "Ab c" ∧
    titleRule.apply "Two Words, Ok!" = "Two Words, Ok!" :=
  ⟨⟨by decide, by decide, by decide, by decide⟩,
   c9_casing_idempotence "Ab c" "Two Words, Ok!" (by decide) (by decide)
     (by decide) (by decide)⟩

/-- C2: `PromptTemplate.format` raises if and only if at least one
declared required field is absent from the supplied mapping; when it
raises, the error carries exactly the declared-order list of every absent
required field name and no rendering is produced (the model returns the
error instead of a string); when all required fields are present it
renders successfully. -/
theorem c2_missing_field_error (t : PromptTemplate) (fv : FieldValues) :
    ((∃ m, t.format fv = .error m) ↔ ∃ f ∈ t.required_fields, hasKeyFV fv f = false) ∧
    (∀ m, t.format fv = .error m →
      m = t.required_fields.filter (fun f => !(hasKeyFV fv f))) ∧
    (∀ m, t.format fv = .error m →
      ∀ f ∈ t.required_fields, hasKeyFV fv f = false → f ∈ m) ∧
    ((∀ f ∈ t.required_fields, hasKeyFV fv f = true) → ∃ out, t.format fv = .ok out) := by
  have hfmt : t.format fv =
      if (t.required_fields.filter (fun f => !(hasKeyFV fv f))).isEmpty then
        .ok (pyJoin "\n\n" (t.fields.filterMap (renderField t.reformatter fv)))
      else .error (t.required_fields.filter (fun f => !(hasKeyFV fv f))) := rfl
  by_cases hM : (t.required_fields.filter (fun f => !(hasKeyFV fv f))).isEmpty = true
  · rw [hfmt, if_pos hM]
    rw [List.isEmpty_iff] at hM
    have hnone : ¬ ∃ f ∈ t.required_fields, hasKeyFV fv f = false := by
      rintro ⟨f, hf, hk⟩
      have hmem : f ∈ t.required_fields.filter (fun f => !(hasKeyFV fv f)) :=
        List.mem_filter.mpr ⟨hf, by simp [hk]⟩
      rw [hM] at hmem
      exact absurd hmem (List.not_mem_nil f)
    refine ⟨⟨?_, ?_⟩, ?_, ?_, ?_⟩
    · rintro ⟨m, hm⟩
      exact absurd hm (by simp)
    · intro h
      exact absurd h hnone
    · intro m hm
      exact absurd hm (by simp)
    · intro m hm
      exact absurd hm (by simp)
    · intro _
      exact ⟨_, rfl⟩
  · rw [hfmt, if_neg hM]
    have hex : ∃ f ∈ t.required_fields, hasKeyFV fv f = false := by
      cases hl : t.required_fields.filter (fun f => !(hasKeyFV fv f)) with
      | nil => exact absurd (by rw [hl]; rfl) hM
      | cons a as =>
        have hmem : a ∈ t.required_fields.filter (fun f => !(hasKeyFV fv f)) := by
          rw [hl]
          exact List.mem_cons_self a as
        have := List.mem_filter.mp hmem
        exact ⟨a, this.1, by simpa using this.2⟩
    refine ⟨⟨fun _ => hex, fun _ => ⟨_, rfl⟩⟩, ?_, ?_, ?_⟩
    · intro m hm
      exact (Except.error.inj hm).symm
    · intro m hm f hf hk
      rw [← Except.error.inj hm]
      exact List.mem_filter.mpr ⟨hf, by simp [hk]⟩
    · intro hall
      obtain ⟨f, hf, hk⟩ := hex
      rw [hall f hf] at hk
      exact absurd hk (by simp)

/-- C2 witness: the multiple-choice template with only Task supplied
raises with the absent required fields Question and Options; the general
template with Task and Input supplied renders. -/
theorem c2_witness :
    GENERAL_TEMPLATE.format taskInputFV ≠ .error ["Question"] ∧
    (∀ m, MULTIPLE_CHOICE_TEMPLATE.format [("Task", .vStr "x")] = .error m →
      m = ["Question", "Options"]) ∧
    (∃ out, GENERAL_TEMPLATE.format taskInputFV = .ok out) := by
  refine ⟨by decide, ?_, ?_⟩
  · intro m hm
    have h := (c2_missing_field_error MULTIPLE_CHOICE_TEMPLATE
      [("Task", .vStr "x")]).2.1 m hm
    rw [h]
    decide
  · exact (c2_missing_field_error GENERAL_TEMPLATE taskInputFV).2.2.2
      (by decide)

/-- C10: the rendering of a template depends only on the bindings of its
declared fields: whenever two field-value mappings agree on every
declared field (so adding or removing bindings for undeclared keys, which
are silently ignored), the rendered result, including the missing-field
check, is identical.  The hypothesis that every required field is
declared is the data-model invariant (required fields are "a subset
marked required" of the declared field list); both built-in templates
satisfy it. -/
theorem c10_undeclared_fields_ignored (t : PromptTemplate)
    (fv1 fv2 : FieldValues)
    (hsub : ∀ f ∈ t.required_fields, f ∈ t.fields)
    (hagree : ∀ f ∈ t.fields, lookupFV fv1 f = lookupFV fv2 f) :
    t.format fv1 = t.format fv2 := by
  unfold PromptTemplate.format
  have h1 : t.required_fields.filter (fun f => !(hasKeyFV fv1 f)) =
      t.required_fields.filter (fun f => !(hasKeyFV fv2 f)) := by
    apply List.filter_congr
    intro f hf
    unfold hasKeyFV
    rw [hagree f (hsub f hf)]
  have h2 : t.fields.filterMap (renderField t.reformatter fv1) =
      t.fields.filterMap (renderField t.reformatter fv2) := by
    apply List.filterMap_congr
    intro f hf
    unfold renderField
    rw [hagree f hf]
  rw [h1, h2]

/-- C10 witness: adding an undeclared binding to the general template's
field values leaves the rendering identical. -/
theorem c10_witness :
    (∀ f ∈ GENERAL_TEMPLATE.required_fields, f ∈ GENERAL_TEMPLATE.fields) ∧
    (∀ f ∈ GENERAL_TEMPLATE.fields,
      lookupFV [("Task", .vStr "a"), ("Input", .vStr "b"), ("Unused", .vStr "z")] f =
      lookupFV taskInputFV f) ∧
    GENERAL_TEMPLATE.format
        [("Task", .vStr "a"), ("Input", .vStr "b"), ("Unused", .vStr "z")] =
      GENERAL_TEMPLATE.format taskInputFV :=
  ⟨by decide, by decide,
   c10_undeclared_fields_ignored GENERAL_TEMPLATE _ _ (by decide) (by decide)⟩

/-- C7: for each of the four recognized axis names, `add_rule` installs
the given rule as the new first element of that axis's list (hence, by
`get_formatting_summary`, the active rule); every other axis name yields
the unknown-rule-type error, and no state change is possible since no
successor state is returned. -/
theorem c7_add_rule (self : PromptReformatter) :
    (∀ ru : SeparatorRule, self.add_rule "separator" (.sep ru) =
      .ok { self with separator_rules := ru :: self.separator_rules }) ∧
    (∀ ru : CasingRule, self.add_rule "casing" (.cas ru) =
      .ok { self with casing_rules := ru :: self.casing_rules }) ∧
    (∀ ru : ItemFormattingRule, self.add_rule "item_formatting" (.item ru) =
      .ok { self with item_formatting_rules := ru :: self.item_formatting_rules }) ∧
    (∀ ru : EnumerationRule, self.add_rule "enumeration" (.enum ru) =
      .ok { self with enumeration_rules := ru :: self.enumeration_rules }) ∧
    (∀ ru : SeparatorRule,
      ({ self with separator_rules := ru :: self.separator_rules } :
        PromptReformatter).get_formatting_summary.separator = ru.name) ∧
    (∀ ru : CasingRule,
      ({ self with casing_rules := ru :: self.casing_rules } :
        PromptReformatter).get_formatting_summary.casing = ru.name) ∧
    (∀ ru : ItemFormattingRule,
      ({ self with item_formatting_rules := ru :: self.item_formatting_rules } :
        PromptReformatter).get_formatting_summary.item_formatting = ru.name) ∧
    (∀ ru : EnumerationRule,
      ({ self with enumeration_rules := ru :: self.enumeration_rules } :
        PromptReformatter).get_formatting_summary.enumeration = ru.name) ∧
    (∀ rule_type, rule_type ∉
        (["separator", "casing", "item_formatting", "enumeration"] : List String) →
      ∀ rule, self.add_rule rule_type rule =
        .error ("Unknown rule type: " ++ rule_type)) := by
  refine ⟨fun ru => rfl, fun ru => rfl, fun ru => rfl, fun ru => rfl,
    fun ru => rfl, fun ru => rfl, fun ru => rfl, fun ru => rfl, ?_⟩
  intro rule_type hmem rule
  simp only [List.mem_cons, List.not_mem_nil, or_false, not_or] at hmem
  obtain ⟨h1, h2, h3, h4⟩ := hmem
  unfold PromptReformatter.add_rule
  rw [if_neg h1, if_neg h2, if_neg h3, if_neg h4]

/-- C7 witness: a concrete unknown axis name is rejected and a concrete
separator rule becomes the active separator rule. -/
theorem c7_witness :
    defaultReformatter.add_rule "separator" (.sep ⟨"Sep2", "d", "+"⟩) =
      .ok { defaultReformatter with
            separator_rules := ⟨"Sep2", "d", "+"⟩ :: defaultReformatter.separator_rules } ∧
    ("bogus" ∉ (["separator", "casing", "item_formatting", "enumeration"] : List String)) ∧
    defaultReformatter.add_rule "bogus" (.sep ⟨"Sep2", "d", "+"⟩) =
      .error "Unknown rule type: bogus" :=
  ⟨(c7_add_rule defaultReformatter).1 ⟨"Sep2", "d", "+"⟩, by decide,
   (c7_add_rule defaultReformatter).2.2.2.2.2.2.2.2 "bogus" (by decide)
     (.sep ⟨"Sep2", "d", "+"⟩)⟩

/-- C8: when field extraction on a raw text input yields nothing (and the
template declares at least one required field), `PromptReformatter.format`
renders with the entire input text bound to the template's first required
field: the result triple is exactly the rendering of that one-field
mapping, with the input itself as original prompt. -/
theorem c8_extraction_fallback (r : PromptReformatter) (text : String)
    (hext : r.template.extract_fields text = [])
    (hreq : r.template.required_fields ≠ []) :
    (r.format (.raw text)).2 =
      (r.withBackref.template.format
        [(r.template.required_fields.headD "", Value.vStr text)]).map
        (fun formatted => ⟨text, formatted, r.get_formatting_summary⟩) := by
  have h2 : r.template.required_fields.isEmpty = false := by
    cases hreq' : r.template.required_fields with
    | nil => exact absurd hreq' hreq
    | cons a as => rfl
  unfold PromptReformatter.format
  simp only [hext, h2, List.isEmpty_nil, Bool.not_false, Bool.and_self, if_true]
  cases hres : (r.withBackref.template.format
      [(r.template.required_fields.headD "", Value.vStr text)]) with
  | error m => simp [hres, Except.map]
  | ok f => simp [hres, Except.map]

/-- C8 witness: with the default reformatter, extraction of the raw text
"hello" yields nothing and the text becomes the Task field. -/
theorem c8_witness :
    defaultReformatter.template.extract_fields "hello" = [] ∧
    defaultReformatter.template.required_fields ≠ [] ∧
    (defaultReformatter.format (.raw "hello")).2 =
      (defaultReformatter.withBackref.template.format
        [(defaultReformatter.template.required_fields.headD "", Value.vStr "hello")]).map
        (fun formatted => ⟨"hello", formatted, defaultReformatter.get_formatting_summary⟩) :=
  ⟨by decide, by decide, c8_extraction_fallback defaultReformatter "hello"
    (by decide) (by decide)⟩

/-- C5 counterexample: with the default reformatter (whose active
separator rule is "Empty") and structured input, two successive calls of
`format` with the same rules and template return different triples: the
first call computes the original prompt before the rule back-reference is
installed on the (shared) template, the second call after, so the
original prompt changes from newline-joined to directly concatenated. -/
theorem c5_counterexample :
    (defaultReformatter.format (.fields taskInputFV)).2 =
      .ok ⟨"Task\na\n\nInput\nb", "Taska\n\nInputb",
           ⟨"Empty", "No Change", "Parentheses", "Numeric"⟩⟩ ∧
    ((defaultReformatter.format (.fields taskInputFV)).1.format
        (.fields taskInputFV)).2 =
      .ok ⟨"Taska\n\nInputb", "Taska\n\nInputb",
           ⟨"Empty", "No Change", "Parentheses", "Numeric"⟩⟩ ∧
    (defaultReformatter.format (.fields taskInputFV)).2 ≠
      ((defaultReformatter.format (.fields taskInputFV)).1.format
        (.fields taskInputFV)).2 := by
  refine ⟨by decide, by decide, by decide⟩

/-- C5 (amended): `format` is deterministic except for the original
prompt of the very first structured-input call on a template without the
rule back-reference: (1) the reformatter state reached after one call is
a fixed point, so the second and every later call return identical
triples; (2) the formatted prompt and the formatting summary agree
between any two successive calls; (3) the full triples agree whenever the
input is raw text or the back-reference was already installed before the
first call. -/
theorem c5_format_deterministic (r : PromptReformatter) (input : FormatInput) :
    ((r.format input).1.format input).1 = (r.format input).1 ∧
    (((r.format input).1.format input).1.format input) =
      ((r.format input).1.format input) ∧
    (∀ o1 o2, (r.format input).2 = .ok o1 →
      ((r.format input).1.format input).2 = .ok o2 →
      o2.formatted_prompt = o1.formatted_prompt ∧
      o2.formatting_summary = o1.formatting_summary) ∧
    (((∃ s, input = .raw s) ∨ r.template.reformatter = some r.rules) →
      ((r.format input).1.format input).2 = (r.format input).2) := by
  have hidem : r.withBackref.withBackref = r.withBackref := rfl
  cases input with
  | raw s =>
    cases h2 : r.withBackref.template.format
        (if (r.template.extract_fields s).isEmpty &&
            !r.template.required_fields.isEmpty then
           [(r.template.required_fields.headD "", Value.vStr s)]
         else r.template.extract_fields s) with
    | error m2 =>
      have hp1 : r.format (.raw s) = (r.withBackref, .error m2) := by
        unfold PromptReformatter.format
        dsimp only
        rw [h2]
      have hp2 : r.withBackref.format (.raw s) = (r.withBackref, .error m2) := by
        unfold PromptReformatter.format
        dsimp only
        rw [hidem,
          show r.withBackref.template.extract_fields s =
            r.template.extract_fields s from rfl,
          show r.withBackref.template.required_fields =
            r.template.required_fields from rfl, h2]
      refine ⟨?_, ?_, ?_, ?_⟩
      · rw [hp1]
        dsimp only
        rw [hp2]
      · rw [hp1]
        dsimp only
        rw [hp2]
        dsimp only
        rw [hp2]
      · intro o1 o2 ho1 _
        rw [hp1] at ho1
        exact absurd ho1 (by simp)
      · intro _
        rw [hp1]
        dsimp only
        rw [hp2]
    | ok f1 =>
      have hp1 : r.format (.raw s) =
          (r.withBackref, .ok ⟨s, f1, r.get_formatting_summary⟩) := by
        unfold PromptReformatter.format
        dsimp only
        rw [h2]
      have hp2 : r.withBackref.format (.raw s) =
          (r.withBackref, .ok ⟨s, f1, r.get_formatting_summary⟩) := by
        unfold PromptReformatter.format
        dsimp only
        rw [hidem,
          show r.withBackref.template.extract_fields s =
            r.template.extract_fields s from rfl,
          show r.withBackref.template.required_fields =
            r.template.required_fields from rfl, h2]
        exact rfl
      refine ⟨?_, ?_, ?_, ?_⟩
      · rw [hp1]
        dsimp only
        rw [hp2]
      · rw [hp1]
        dsimp only
        rw [hp2]
        dsimp only
        rw [hp2]
      · intro o1 o2 ho1 ho2
        rw [hp1] at ho1
        rw [hp1] at ho2
        dsimp only at ho1 ho2
        rw [hp2] at ho2
        dsimp only at ho2
        rw [← Except.ok.inj ho1, ← Except.ok.inj ho2]
        exact ⟨rfl, rfl⟩
      · intro _
        rw [hp1]
        dsimp only
        rw [hp2]
  | fields fv =>
    cases h1 : r.template.format fv with
    | error m =>
      have hp1 : r.format (.fields fv) = (r, .error m) := by
        unfold PromptReformatter.format
        dsimp only
        rw [h1]
      refine ⟨?_, ?_, ?_, ?_⟩
      · rw [hp1]
        dsimp only
        rw [hp1]
      · rw [hp1]
        dsimp only
        rw [hp1]
        dsimp only
        rw [hp1]
      · intro o1 o2 ho1 _
        rw [hp1] at ho1
        exact absurd ho1 (by simp)
      · intro _
        rw [hp1]
        dsimp only
        rw [hp1]
    | ok orig =>
      cases h2 : r.withBackref.template.format fv with
      | error m2 =>
        have hp1 : r.format (.fields fv) = (r.withBackref, .error m2) := by
          unfold PromptReformatter.format
          dsimp only
          rw [h1]
          dsimp only
          rw [h2]
        have hp2 : r.withBackref.format (.fields fv) = (r.withBackref, .error m2) := by
          unfold PromptReformatter.format
          dsimp only
          rw [h2]
        refine ⟨?_, ?_, ?_, ?_⟩
        · rw [hp1]
          dsimp only
          rw [hp2]
        · rw [hp1]
          dsimp only
          rw [hp2]
          dsimp only
          rw [hp2]
        · intro o1 o2 ho1 _
          rw [hp1] at ho1
          exact absurd ho1 (by simp)
        · rintro (⟨s, hs⟩ | hset)
          · exact absurd hs (by simp)
          · exfalso
            have hwb : r.withBackref = r := by
              show { r with template :=
                { r.template with reformatter := some r.rules } } = r
              rw [← hset]
            rw [hwb, h1] at h2
            exact absurd h2 (by simp)
      | ok f1 =>
        have hp1 : r.format (.fields fv) =
            (r.withBackref, .ok ⟨orig, f1, r.get_formatting_summary⟩) := by
          unfold PromptReformatter.format
          dsimp only
          rw [h1]
          dsimp only
          rw [h2]
        have hp2 : r.withBackref.format (.fields fv) =
            (r.withBackref, .ok ⟨f1, f1, r.get_formatting_summary⟩) := by
          unfold PromptReformatter.format
          dsimp only
          rw [hidem, h2]
          exact rfl
        refine ⟨?_, ?_, ?_, ?_⟩
        · rw [hp1]
          dsimp only
          rw [hp2]
        · rw [hp1]
          dsimp only
          rw [hp2]
          dsimp only
          rw [hp2]
        · intro o1 o2 ho1 ho2
          rw [hp1] at ho1
          rw [hp1] at ho2
          dsimp only at ho1 ho2
          rw [hp2] at ho2
          dsimp only at ho2
          rw [← Except.ok.inj ho1, ← Except.ok.inj ho2]
          exact ⟨rfl, rfl⟩
        · rintro (⟨s, hs⟩ | hset)
          · exact absurd hs (by simp)
          · have hwb : r.withBackref = r := by
              show { r with template :=
                { r.template with reformatter := some r.rules } } = r
              rw [← hset]
            have horig : orig = f1 := by
              rw [hwb, h1] at h2
              exact Except.ok.inj h2
            rw [hp1]
            dsimp only
            rw [hp2]
            dsimp only
            rw [horig]

/-- C5 witness: concrete instantiation of the amended determinism
theorem with raw-text input, discharging its hypothesis. -/
theorem c5_witness :
    ((defaultReformatter.format (.raw "hi")).1.format (.raw "hi")).2 =
      (defaultReformatter.format (.raw "hi")).2 ∧
    (defaultReformatter.format (.raw "hi")).2 = .error ["Input"] :=
  ⟨(c5_format_deterministic defaultReformatter (.raw "hi")).2.2.2
    (Or.inl ⟨"hi", rfl⟩), by decide⟩

/-- C6 counterexample: with the Space separator rule active, a rendered
example occupies a single line (label, index, "Input: …" and "Output: …"
are joined by the separator rule's space, not by newlines), so the claim
that every example renders as a three-line block fails. -/
theorem c6_counterexample :
    (spaceReformatter.format (.fields exampleFV)).2 =
      .ok ⟨"Task\nt\n\nExamples\nExample 1\nInput: x\nOutput: y\n\nInput\ni",
           "Task t\n\nExamples Example (1) Input: x Output: y\n\nInput i",
           ⟨"Space", "No Change", "Parentheses", "Numeric"⟩⟩ ∧
    (pySplit "Examples Example (1) Input: x Output: y" "\n").length = 1 := by
  refine ⟨by decide, by decide⟩

/-- C6 (amended): each example renders as a three-component block — the
example label plus index, an "Input: …" component and an "Output: …"
component — joined by the active separator rule's separator string (a
newline only when that separator is a newline), with the index produced
by applying the active EnumerationRule and then the active
ItemFormattingRule's wrapper; consecutive example blocks are joined by a
double newline.  Option lists render one component per option (index,
separator, option text, with the index built the same way), joined by the
literal " -- " whenever separator rules are active.  Stated for a
reformatter built with non-empty rule lists, over the general template
(examples) and the multiple-choice template (options). -/
theorem c6_examples_options_rendering
    (s : SeparatorRule) (c : CasingRule) (f : ItemFormattingRule)
    (e : EnumerationRule) (srest : List SeparatorRule) (crest : List CasingRule)
    (frest : List ItemFormattingRule) (erest : List EnumerationRule)
    (task inp question : String) (exs : List Example) (opts : List String)
    (hex : exs ≠ []) :
    ((PromptReformatter.make (s :: srest) (c :: crest) (f :: frest) (e :: erest)
        (some GENERAL_TEMPLATE)).format
      (.fields [("Task", .vStr task), ("Examples", .vExamples exs),
                ("Input", .vStr inp)])).2 =
      .ok ⟨("Task" ++ "\n" ++ task) ++ "\n\n" ++
             (("Examples" ++ "\n" ++
               pyJoin "\n\n" ((pyEnumerate1 exs).map (fun p =>
                 "Example" ++ " " ++ toString p.1 ++ "\n" ++
                 "Input" ++ ": " ++ p.2.input ++ "\n" ++
                 "Output" ++ ": " ++ p.2.output))) ++ "\n\n" ++
              ("Input" ++ "\n" ++ inp)),
           (c.apply "Task" ++ s.separator ++ task) ++ "\n\n" ++
             ((c.apply "Examples" ++ s.separator ++
               pyJoin "\n\n" ((pyEnumerate1 exs).map (fun p =>
                 c.apply "Example" ++ " " ++
                 pyFormat f.format_str (e.apply (toString p.1)) ++ s.separator ++
                 c.apply "Input" ++ ": " ++ p.2.input ++ s.separator ++
                 c.apply "Output" ++ ": " ++ p.2.output))) ++ "\n\n" ++
              (c.apply "Input" ++ s.separator ++ inp)),
           ⟨s.name, c.name, f.name, e.name⟩⟩ ∧
    ((PromptReformatter.make (s :: srest) (c :: crest) (f :: frest) (e :: erest)
        (some MULTIPLE_CHOICE_TEMPLATE)).format
      (.fields [("Task", .vStr task), ("Question", .vStr question),
                ("Options", .vOptions opts)])).2 =
      .ok ⟨("Task" ++ "\n" ++ task) ++ "\n\n" ++
             (("Question" ++ "\n" ++ question) ++ "\n\n" ++
              ("Options" ++ "\n" ++ "")),
           (c.apply "Task" ++ s.separator ++ task) ++ "\n\n" ++
             ((c.apply "Question" ++ s.separator ++ question) ++ "\n\n" ++
              (c.apply "Options" ++ s.separator ++
               pyJoin " -- " ((pyEnumerate1 opts).map (fun p =>
                 pyFormat f.format_str (e.apply (toString p.1)) ++ s.separator ++
                 p.2)))),
           ⟨s.name, c.name, f.name, e.name⟩⟩ := by
  cases exs with
  | nil => exact absurd rfl hex
  | cons e0 etail => exact ⟨rfl, rfl⟩

/-- C6 witness: concrete instantiation of the amended rendering theorem
(Newline separator, Upper casing, Brackets wrapper, uppercase Roman
enumeration, one example). -/
theorem c6_witness :
    ([(⟨"x", "y"⟩ : Example)] ≠ []) ∧
    ((PromptReformatter.make [⟨"Newline", "Single newline", "\n"⟩] [upperRule]
        [⟨"Brackets", "Use square brackets", "[{}]"⟩] [romanUpperRule]
        (some GENERAL_TEMPLATE)).format
      (.fields [("Task", .vStr "t"), ("Examples", .vExamples [⟨"x", "y"⟩]),
                ("Input", .vStr "i")])).2 =
      .ok ⟨"Task\nt\n\nExamples\nExample 1\nInput: x\nOutput: y\n\nInput\ni",
           "TASK\nt\n\nEXAMPLES\nEXAMPLE [I]\nINPUT: x\nOUTPUT: y\n\nINPUT\ni",
           ⟨"Newline", "Upper", "Brackets", "Roman Upper"⟩⟩ := by
  have h := (c6_examples_options_rendering ⟨"Newline", "Single newline", "\n"⟩
    upperRule ⟨"Brackets", "Use square brackets", "[{}]"⟩ romanUpperRule
    [] [] [] [] "t" "i" "q" [⟨"x", "y"⟩] [] (by decide)).1
  exact ⟨by decide, h.trans (by decide)⟩

/-- Pointwise-equal functions map lists equally. -/
theorem mapCongrMem {α β : Type} (f g : α → β) :
    ∀ l : List α, (∀ a ∈ l, f a = g a) → l.map f = l.map g := by
  intro l
  induction l with
  | nil => intro _; rfl
  | cons a t ih =>
    intro h
    rw [List.map_cons, List.map_cons, h a (List.mem_cons_self a t),
      ih (fun x hx => h x (List.mem_cons_of_mem a hx))]

/-- The maximum of a non-empty list of rationals is attained (is not ⊥). -/
theorem maximum_coe_of_ne_nil (l : List ℚ) (h : l ≠ []) :
    ∃ m : ℚ, l.maximum = (m : WithBot ℚ) := by
  cases l with
  | nil => exact absurd rfl h
  | cons a t =>
    rw [List.maximum_cons]
    cases hM : t.maximum with
    | bot => exact ⟨a, max_eq_left bot_le⟩
    | coe mt => exact ⟨max a mt, (WithBot.coe_max a mt).symm⟩

/-- First component of the search loop's fold: the running best score is
the maximum of the initial best score and all candidate scores. -/
theorem runBest_fst (l : List (FormatCandidate × ℚ × String)) :
    ∀ (b : WithBot ℚ) (bc : Option FormatCandidate) (br : String),
    (runBest l b bc br).1 = max b ((l.map (fun p => p.2.1)).maximum) := by
  induction l with
  | nil =>
    intro b bc br
    rw [List.map_nil, List.maximum_nil]
    exact (max_eq_left bot_le).symm
  | cons hd tl ih =>
    intro b bc br
    obtain ⟨c, s, resp⟩ := hd
    rw [List.map_cons, List.maximum_cons]
    show (if b < (s : WithBot ℚ) then runBest tl s (some c) resp
          else runBest tl b bc br).1 = _
    by_cases h : b < (s : WithBot ℚ)
    · rw [if_pos h, ih]
      have h1 : b ≤ max (s : WithBot ℚ) ((tl.map (fun p => p.2.1)).maximum) :=
        le_trans h.le (le_max_left _ _)
      rw [max_eq_right h1]
    · rw [if_neg h, ih]
      push_neg at h
      rw [← max_assoc, max_eq_left h]

/-- Second component of the search loop's fold: the final best candidate
is the initial one when no score strictly exceeds the initial best score,
and otherwise the first candidate attaining the maximal score. -/
theorem runBest_snd (l : List (FormatCandidate × ℚ × String)) :
    ∀ (b : WithBot ℚ) (bc : Option FormatCandidate) (br : String),
    (runBest l b bc br).2.1 =
      if (l.map (fun p => p.2.1)).maximum ≤ b then bc
      else (l.find? (fun p =>
          decide ((p.2.1 : WithBot ℚ) = (l.map (fun p => p.2.1)).maximum))).map
        (fun p => p.1) := by
  induction l with
  | nil =>
    intro b bc br
    rw [List.map_nil, List.maximum_nil]
    rw [if_pos bot_le]
    rfl
  | cons hd tl ih =>
    intro b bc br
    obtain ⟨c, s, resp⟩ := hd
    rw [List.map_cons, List.maximum_cons]
    show (if b < (s : WithBot ℚ) then runBest tl s (some c) resp
          else runBest tl b bc br).2.1 = _
    by_cases h : b < (s : WithBot ℚ)
    · rw [if_pos h, ih]
      have hnle : ¬ (max (s : WithBot ℚ) ((tl.map (fun p => p.2.1)).maximum) ≤ b) :=
        fun hle => absurd (le_trans (le_max_left _ _) hle) (not_le.mpr h)
      rw [if_neg hnle]
      by_cases h2 : (tl.map (fun p => p.2.1)).maximum ≤ (s : WithBot ℚ)
      · rw [if_pos h2]
        have hM : max (s : WithBot ℚ) ((tl.map (fun p => p.2.1)).maximum) = (s : WithBot ℚ) :=
          max_eq_left h2
        rw [hM]
        rw [List.find?_cons_of_pos _ (by simp)]
        rfl
      · have hlt : (s : WithBot ℚ) < (tl.map (fun p => p.2.1)).maximum := not_le.mp h2
        have hM : max (s : WithBot ℚ) ((tl.map (fun p => p.2.1)).maximum) =
            (tl.map (fun p => p.2.1)).maximum := max_eq_right hlt.le
        rw [if_neg h2, hM]
        rw [List.find?_cons_of_neg _ (by simp; exact ne_of_lt hlt)]
    · rw [if_neg h, ih]
      have hsb : (s : WithBot ℚ) ≤ b := not_lt.mp h
      by_cases h2 : (tl.map (fun p => p.2.1)).maximum ≤ b
      · have hmax : max (s : WithBot ℚ) ((tl.map (fun p => p.2.1)).maximum) ≤ b :=
          max_le hsb h2
        rw [if_pos h2, if_pos hmax]
      · have hnle : ¬ (max (s : WithBot ℚ) ((tl.map (fun p => p.2.1)).maximum) ≤ b) :=
          fun hle => h2 (le_trans (le_max_right _ _) hle)
        rw [if_neg h2, if_neg hnle]
        have hM : max (s : WithBot ℚ) ((tl.map (fun p => p.2.1)).maximum) =
            (tl.map (fun p => p.2.1)).maximum :=
          max_eq_right (le_trans hsb (not_le.mp h2).le)
        rw [hM]
        rw [List.find?_cons_of_neg _ (by simp; intro heq; exact h2 (heq ▸ hsb))]

/-- Every pair of the candidate evaluation sequence records its score on
the candidate. -/
theorem improvePairs_score (field_values : FieldValues)
    (original_prompt original_response : String)
    (sample : Nat → FormatCandidate) (respond : String → String)
    (judge : String → String → String → String) (total : Nat) :
    ∀ p ∈ improvePairs field_values original_prompt original_response
      sample respond judge total, p.1.score = some p.2.1 := by
  intro p hp
  simp only [improvePairs, List.mem_map] at hp
  obtain ⟨i, _, hi⟩ := hp
  rw [← hi]
  rfl

/-- Searching for the first candidate with a given recorded score is the
same through the candidate projection as through the score component. -/
theorem find?_map_fst_score (m : ℚ) :
    ∀ (l : List (FormatCandidate × ℚ × String)),
    (∀ p ∈ l, p.1.score = some p.2.1) →
    (l.map (fun p => p.1)).find? (fun c => decide (c.score = some m)) =
      (l.find? (fun p =>
        decide ((p.2.1 : WithBot ℚ) = (m : WithBot ℚ)))).map (fun p => p.1) := by
  intro l
  induction l with
  | nil => intro _; rfl
  | cons hd tl ih =>
    intro hinv
    have hhd := hinv hd (List.mem_cons_self _ _)
    have hiff : (hd.1.score = some m) ↔ ((hd.2.1 : WithBot ℚ) = (m : WithBot ℚ)) := by
      rw [hhd]
      constructor
      · intro hx
        rw [Option.some_inj.mp hx]
      · intro hx
        rw [WithBot.coe_inj.mp hx]
    rw [List.map_cons]
    by_cases h : hd.1.score = some m
    · rw [List.find?_cons_of_pos _ (by simp [h]),
        List.find?_cons_of_pos _ (by simp [hiff.mp h])]
      rfl
    · rw [List.find?_cons_of_neg _ (by simp [h]),
        List.find?_cons_of_neg _
          (by simp; exact fun hx => h (hiff.mpr (WithBot.coe_inj.mpr hx))),
        ih (fun p hp => hinv p (List.mem_cons_of_mem _ hp))]

/-- C1: when the baseline render succeeds (and all collaborator calls,
being modelled as total oracles, succeed), `improve` over N iterations of
K candidates records exactly N×K candidates
(`num_candidates_evaluated = N×K`, with matching score list), every
recorded candidate carries its score, the returned `improvement_score`
equals the maximum of all recorded scores, and the reported best
candidate is the first recorded candidate attaining that maximum
(strict-improvement updates break ties in favour of the earliest
candidate). -/
theorem c1_improve_counts_and_best (field_values : FieldValues)
    (num_candidates num_iterations : Nat)
    (hK : 0 < num_candidates) (hN : 0 < num_iterations)
    (sample : Nat → FormatCandidate) (respond : String → String)
    (judge : String → String → String → String) (r : ImproveResult)
    (h : PromptImprover.improve field_values num_candidates num_iterations
      sample respond judge = .ok r) :
    r.num_candidates_evaluated = num_iterations * num_candidates ∧
    r.all_candidates.length = num_iterations * num_candidates ∧
    r.all_scores.length = num_iterations * num_candidates ∧
    r.all_candidates.map (fun c => c.score) = r.all_scores.map some ∧
    r.improvement_score = r.all_scores.maximum ∧
    (∃ m : ℚ, r.all_scores.maximum = (m : WithBot ℚ) ∧
      r.best_format = r.all_candidates.find? (fun c => decide (c.score = some m))) := by
  unfold PromptImprover.improve at h
  dsimp only at h
  cases hE : ((PromptReformatter.make [] [] [] []
      (some (improveSetup field_values).1)).format
      (.fields (improveSetup field_values).2)).2 with
  | error m =>
    rw [hE] at h
    exact absurd h (by simp)
  | ok out =>
    rw [hE] at h
    dsimp only at h
    have hr := Except.ok.inj h
    subst hr
    dsimp only
    have hinv : ∀ p ∈ improvePairs (improveSetup field_values).2
        out.original_prompt (respond out.original_prompt) sample respond judge
        (num_iterations * num_candidates), p.1.score = some p.2.1 :=
      improvePairs_score _ _ _ _ _ _ _
    have hlen : (improvePairs (improveSetup field_values).2
        out.original_prompt (respond out.original_prompt) sample respond judge
        (num_iterations * num_candidates)).length =
        num_iterations * num_candidates := by
      simp [improvePairs]
    generalize hT : improvePairs (improveSetup field_values).2
        out.original_prompt (respond out.original_prompt) sample respond judge
        (num_iterations * num_candidates) = P
    rw [hT] at hinv hlen
    refine ⟨?_, ?_, ?_, ?_, ?_, ?_⟩
    · rw [List.length_map, hlen]
    · rw [List.length_map, hlen]
    · rw [List.length_map, hlen]
    · rw [List.map_map, List.map_map]
      exact mapCongrMem _ _ P (fun p hp => hinv p hp)
    · rw [runBest_fst]
      exact max_eq_right bot_le
    · have hPne : P ≠ [] := by
        intro h0
        rw [h0] at hlen
        have := Nat.mul_pos hN hK
        simp at hlen
        omega
      have hsne : P.map (fun p => p.2.1) ≠ [] := by
        intro h0
        exact hPne (List.map_eq_nil_iff.mp h0)
      obtain ⟨m, hM⟩ := maximum_coe_of_ne_nil (P.map (fun p => p.2.1)) hsne
      refine ⟨m, hM, ?_⟩
      rw [runBest_snd]
      have hnle : ¬ ((P.map (fun p => p.2.1)).maximum ≤ ⊥) := by
        rw [hM]
        intro hle
        exact WithBot.coe_ne_bot (le_bot_iff.mp hle)
      rw [if_neg hnle, hM]
      exact (find?_map_fst_score m P hinv).symm

/-- C1 witness: a concrete `improve` run with 2 iterations of 1 candidate
(constant oracles, judge answering "0.5"), instantiating the count and
maximum-score theorem. -/
theorem c1_witness :
    ((0 : Nat) < 1 ∧ (0 : Nat) < 2) ∧
    PromptImprover.improve taskInputFV 1 2 wSample wRespond wJudge =
      .ok wImproveResult ∧
    (wImproveResult.num_candidates_evaluated = 2 * 1 ∧
     wImproveResult.all_candidates.length = 2 * 1 ∧
     wImproveResult.all_scores.length = 2 * 1 ∧
     wImproveResult.all_candidates.map (fun c => c.score) =
       wImproveResult.all_scores.map some ∧
     wImproveResult.improvement_score = wImproveResult.all_scores.maximum ∧
     (∃ m : ℚ, wImproveResult.all_scores.maximum = (m : WithBot ℚ) ∧
       wImproveResult.best_format = wImproveResult.all_candidates.find?
         (fun c => decide (c.score = some m)))) :=
  ⟨⟨by decide, by decide⟩, by decide,
   c1_improve_counts_and_best taskInputFV 1 2 (by decide) (by decide)
     wSample wRespond wJudge wImproveResult (by decide)⟩
